import Mathlib

/-!
Verification development for the robust_taxi ad-dispatch service.

The definitions below are a shallow embedding of the Python source:
`src/services.py` (the ad decision engine `AdDecisionService.decide_ad`),
`src/app.py` (the WebSocket session registry `register_device` /
`unregister_device`, the HTTP heartbeat endpoint `device_heartbeat`, and the
device chunked-download endpoint `device_download_video_chunk`), and
`src/admin_api.py` (campaign deletion and the chunked-upload state machine
`init_chunked_upload` / `upload_chunk` / `complete_chunked_upload`).

MongoDB collections are modelled as lists of documents; `find_one` is a
first-match lookup, `update_one` updates the first matching document and
`delete_one` removes it, mirroring the query-by-`_id` usage in the source.
The geo-intersection query (`$geoIntersects`) is an external capability of
the store and is modelled as an opaque boolean field of the database value.
Optional Mongo fields read with `.get(key, default)` are modelled as `Option`
fields read with `getD`.  Python integers are `Int`/`Nat`; file bytes are
`List Nat`; filesystem and socket effects are explicit state threading.
-/

namespace RobustTaxi

/-! Data model (src/models.py document shapes). -/

/-- GeoJSON point; coordinates are opaque payload for every property proved
here (the source stores floats but never computes with them on the decision
path). -/
structure Point where
  lon : Int
  lat : Int
deriving DecidableEq, Repr

/-- Device document (DeviceModel.create). -/
structure Device where
  id : String
  device_type : String
  groups : List String
  last_location : Option Point
deriving DecidableEq, Repr

/-- Advertisement document (AdvertisementModel.create); `name` and
`video_filename` are read with defaults in services.py, hence `Option`. -/
structure Advertisement where
  id : String
  name : Option String
  video_filename : Option String
  status : String
deriving DecidableEq, Repr

/-- Campaign document (CampaignModel).  `advertisement_ids` may be absent or
empty (both are falsy in Python, triggering the legacy `advertisement_id`
fallback), so an absent list is modelled as `[]`.  `priority` and
`current_ad_index` are read with `.get(_, 0)`. -/
structure Campaign where
  id : String
  name : String
  advertisement_ids : List String
  advertisement_id : Option String
  priority : Option Int
  target_groups : List String
  status : String
  current_ad_index : Option Nat
deriving DecidableEq, Repr

/-- The document store.  `geoIntersects c pt` models the outcome of the
`$geoIntersects` geofence query of campaign `c` against point `pt`; geometry
itself is out of scope (external MongoDB capability). -/
structure DB where
  devices : List Device
  advertisements : List Advertisement
  campaigns : List Campaign
  geoIntersects : String → Point → Bool

/-- Update the first list element satisfying `p` (Mongo `update_one`). -/
def updateFirst (p : α → Bool) (f : α → α) : List α → List α
  | [] => []
  | x :: xs => if p x then f x :: xs else x :: updateFirst p f xs

/-- Remove the first list element satisfying `p` (Mongo `delete_one`). -/
def deleteFirst (p : α → Bool) : List α → List α
  | [] => []
  | x :: xs => if p x then xs else x :: deleteFirst p xs

/-- Mongo `db.devices.find_one({"_id": id})`. -/
def find_one_device (db : DB) (id : String) : Option Device :=
  db.devices.find? (fun d => d.id == id)

/-- Mongo `db.advertisements.find_one({"_id": id, "status": "active"})`
(services.py step 7). -/
def find_one_active_ad (db : DB) (id : String) : Option Advertisement :=
  db.advertisements.find? (fun a => a.id == id && a.status == "active")

/-- Mongo `db.devices.update_one({"_id": id}, {"$set": {"last_location": ...}})`
(services.py step 2). -/
def update_device_location (db : DB) (id : String) (pt : Point) : DB :=
  { db with devices := (updateFirst (fun d => d.id == id)
      (fun d => { d with last_location := some pt }) db.devices) }

/-- Mongo `db.campaigns.update_one({"_id": id}, {"$set": {"current_ad_index": idx}})`
(services.py step 9). -/
def set_campaign_rotation_index (db : DB) (id : String) (idx : Nat) : DB :=
  { db with campaigns := (updateFirst (fun c => c.id == id)
      (fun c => { c with current_ad_index := some idx }) db.campaigns) }

/-! Ad decision engine (src/services.py, AdDecisionService.decide_ad). -/

/-- Value of config.py DEFAULT_VIDEO. -/
def DEFAULT_VIDEO : String := "default_ad_loop.mp4"

/-- Campaigns whose geofence intersects the point and whose status is active
(services.py steps 3-4: the `$geoIntersects` + `status: "active"` query). -/
def matching_campaigns (db : DB) (pt : Point) : List Campaign :=
  db.campaigns.filter (fun c => db.geoIntersects c.id pt && c.status == "active")

/-- Services.py step 5: keep campaigns whose target groups meet the device
groups (`any(group in target_groups for group in device_groups)`). -/
def eligible_campaigns (db : DB) (device : Device) (pt : Point) : List Campaign :=
  (matching_campaigns db pt).filter
    (fun c => device.groups.any (fun g => c.target_groups.contains g))

/-- Priority as read by the engine: `campaign.get('priority', 0)`. -/
def priorityOf (c : Campaign) : Int := c.priority.getD 0

/-- Python `max(eligible_campaigns, key=lambda c: c.get('priority', 0))`:
first-encountered maximum (replace the running best only on strictly greater
key).  Returns `none` exactly on the empty list, which the source guards
against separately. -/
def max_by_priority : List Campaign → Option Campaign
  | [] => none
  | c :: cs => some (cs.foldl (fun best x => if priorityOf x > priorityOf best then x else best) c)

/-- Services.py step 7 preamble: use `advertisement_ids` when truthy (non
empty), else fall back to the truthy legacy `advertisement_id`, else give up. -/
def campaign_ad_ids (c : Campaign) : Option (List String) :=
  if !c.advertisement_ids.isEmpty then
    some c.advertisement_ids
  else
    match c.advertisement_id with
    | some adId => if adId == "" then none else some [adId]
    | none => none

/-- Services.py rotation loop: `for i in range(list_len): idx = (current + i)
% list_len`, taking the first candidate for which the active-ad lookup
succeeds.  `idx` is the current cursor (already reduced below the length) and
the `Nat` fuel counts the remaining loop iterations, starting at the list
length.  Returns the selected position, the candidate id and the found
advertisement document. -/
def scan_ads (db : DB) (ids : List String) : Nat → Nat → Option (Nat × String × Advertisement)
  | _, 0 => none
  | idx, k + 1 =>
    match ids.get? idx with
    | none => none
    | some candidateId =>
      match find_one_active_ad db candidateId with
      | some ad => some (idx, candidateId, ad)
      | none => scan_ads db ids ((idx + 1) % ids.length) k

/-- The dictionary returned by decide_ad on success. -/
structure Decision where
  video_filename : String
  advertisement_id : String
  advertisement_name : String
  campaign_id : String
  advertisement_ids : List String
deriving DecidableEq, Repr

/-- AdDecisionService.decide_ad.  Returns the decision (or `none`, which the
source uses both for a missing device and for every no-decision outcome) and
the database after its writes (device location, campaign rotation index). -/
def decide_ad (db : DB) (device_id : String) (pt : Point) : Option Decision × DB :=
  match find_one_device db device_id with
  | none => (none, db)
  | some device =>
    let db := update_device_location db device_id pt
    let eligible := eligible_campaigns db device pt
    match max_by_priority eligible with
    | none => (none, db)
    | some selected =>
      match campaign_ad_ids selected with
      | none => (none, db)
      | some ids =>
        let current0 := selected.current_ad_index.getD 0
        let current := if current0 ≥ ids.length then 0 else current0
        match scan_ads db ids current ids.length with
        | none => (none, db)
        | some (idx, candidateId, ad) =>
          let db := set_campaign_rotation_index db selected.id ((idx + 1) % ids.length)
          (some { video_filename := ad.video_filename.getD DEFAULT_VIDEO
                  advertisement_id := candidateId
                  advertisement_name := ad.name.getD "未命名廣告"
                  campaign_id := selected.id
                  advertisement_ids := ids }, db)

/-! HTTP heartbeat endpoint (src/app.py, device_heartbeat), after request
validation: the decision step and the translation of its outcome into the
HTTP envelope. -/

/-- Heartbeat response envelope (HeartbeatResponse.success / .error). -/
inductive HeartbeatResult where
  | success (video_filename : String)
  | error (message : String) (code : Nat)
deriving DecidableEq, Repr

/-- Steps 2, 3 and 5 of app.py device_heartbeat: run the decision, map `None`
to the 404 device-not-found error, a falsy filename to a 500 error, and
otherwise answer the PLAY_VIDEO success envelope. -/
def device_heartbeat (db : DB) (device_id : String) (pt : Point) : HeartbeatResult × DB :=
  let r := decide_ad db device_id pt
  match r.1 with
  | none => (.error ("找不到設備: " ++ device_id) 404, r.2)
  | some info =>
    if info.video_filename == "" then
      (.error "無法決定播放的廣告" 500, r.2)
    else
      (.success info.video_filename, r.2)

/-! Session registry (src/app.py: active_connections / device_to_sid,
register_device, unregister_device).  Python dicts are modelled as
association lists: assignment replaces the binding in place or appends a new
one, `del` drops the key, lookup is first-match. -/

/-- Record stored in `active_connections[sid]`; timestamps are opaque. -/
structure ConnInfo where
  device_id : String
  connected_at : Nat
  last_activity : Nat
deriving DecidableEq, Repr

/-- Python `d[k] = v` on a dict. -/
def alist_insert : List (String × α) → String → α → List (String × α)
  | [], k, v => [(k, v)]
  | e :: rest, k, v => if e.1 == k then (k, v) :: rest else e :: alist_insert rest k v

/-- Python `del d[k]` on a dict (the key occurs at most once in a dict, so
dropping every binding of `k` is the same operation). -/
def alist_remove (l : List (String × α)) (k : String) : List (String × α) :=
  l.filter (fun e => !(e.1 == k))

/-- Python `d.get(k)` on a dict. -/
def alist_get (l : List (String × α)) (k : String) : Option α :=
  (l.find? (fun e => e.1 == k)).map (fun e => e.2)

/-- The two global connection maps of app.py. -/
structure Registry where
  active_connections : List (String × ConnInfo)
  device_to_sid : List (String × String)
deriving DecidableEq, Repr

/-- The app.py register_device function: evict the old connection bound to
this device id (dropping it from `active_connections` only), then insert the
new binding into both maps. -/
def register_device (r : Registry) (sid device_id : String) (now : Nat) : Registry :=
  let r :=
    match alist_get r.device_to_sid device_id with
    | some old_sid => { r with active_connections := alist_remove r.active_connections old_sid }
    | none => r
  { active_connections := alist_insert r.active_connections sid ⟨device_id, now, now⟩
    device_to_sid := alist_insert r.device_to_sid device_id sid }

/-- The app.py unregister_device function: drop the handle binding if present
and then the device binding; answers the freed device id. -/
def unregister_device (r : Registry) (sid : String) : Option String × Registry :=
  match alist_get r.active_connections sid with
  | some info =>
    let r := { r with active_connections := alist_remove r.active_connections sid }
    let r :=
      if (alist_get r.device_to_sid info.device_id).isSome then
        { r with device_to_sid := alist_remove r.device_to_sid info.device_id }
      else r
    (some info.device_id, r)
  | none => (none, r)

/-- A register or unregister call on the registry. -/
inductive RegistryOp where
  | register (sid device_id : String) (now : Nat)
  | unregister (sid : String)
deriving DecidableEq, Repr

/-- Run a sequence of registry operations. -/
def run_registry (r : Registry) : List RegistryOp → Registry
  | [] => r
  | .register sid d now :: rest => run_registry (register_device r sid d now) rest
  | .unregister sid :: rest => run_registry (unregister_device r sid).2 rest

/-- The mutual-inverse session invariant of the spec: `device_to_sid` maps
`d` to `h` exactly when `active_connections` holds `h` with device id `d`. -/
def MutualInverse (r : Registry) : Prop :=
  ∀ d h, alist_get r.device_to_sid d = some h ↔
    ∃ info, alist_get r.active_connections h = some info ∧ info.device_id = d

/-- A register call is benign when its handle is fresh or currently bound to
the same device (the source only evicts by device id, so reusing a live
handle for another device leaves a stale `device_to_sid` entry behind). -/
def handle_fresh (r : Registry) (sid device_id : String) : Bool :=
  match alist_get r.active_connections sid with
  | some info => info.device_id == device_id
  | none => true

/-- Every register call of the sequence is benign in the state where it runs. -/
def good_ops (r : Registry) : List RegistryOp → Bool
  | [] => true
  | .register sid d now :: rest =>
    handle_fresh r sid d && good_ops (register_device r sid d now) rest
  | .unregister sid :: rest => good_ops (unregister_device r sid).2 rest

/-! Campaign deletion (src/admin_api.py, delete_campaign) with the revert
notification fan-out.  `device_campaign_state` is the optional in-process
cache passed to init_admin_api; app.py passes no such argument, so in the
wired application it is `none`. -/

/-- Admin response envelope of delete_campaign. -/
inductive DeleteCampaignOutcome where
  | error (message : String) (code : Nat)
  | ok (affected_devices : List String)
deriving DecidableEq, Repr

/-- State after a delete_campaign call, plus the device ids to which a
revert_to_local_playlist event was emitted. -/
structure DeleteCampaignResult where
  outcome : DeleteCampaignOutcome
  campaigns : List Campaign
  device_campaign_state : Option (List (String × Option String))
  notified : List String
deriving Repr

/-- The admin_api.py delete_campaign handler: 404 when absent, delete the
document, and when the campaign-state cache exists collect the devices whose
current campaign equals the deleted id, clear their cache entry, and emit the
revert command to each one that resolves to a live sid. -/
def delete_campaign (campaigns : List Campaign)
    (device_campaign_state : Option (List (String × Option String)))
    (device_to_sid : List (String × String))
    (campaign_id : String) : DeleteCampaignResult :=
  match campaigns.find? (fun c => c.id == campaign_id) with
  | none =>
    { outcome := .error ("活動 " ++ campaign_id ++ " 不存在") 404
      campaigns := campaigns
      device_campaign_state := device_campaign_state
      notified := [] }
  | some _ =>
    let campaigns := deleteFirst (fun c => c.id == campaign_id) campaigns
    match device_campaign_state with
    | none =>
      { outcome := .ok []
        campaigns := campaigns
        device_campaign_state := none
        notified := [] }
    | some st =>
      let affected := (st.filter (fun e => e.2 == some campaign_id)).map (fun e => e.1)
      let st := st.map (fun e => if e.2 == some campaign_id then (e.1, none) else e)
      let notified := affected.filter (fun d => (alist_get device_to_sid d).isSome)
      { outcome := .ok affected
        campaigns := campaigns
        device_campaign_state := some st
        notified := notified }

/-! Chunked-upload state machine (src/admin_api.py: init_chunked_upload,
upload_chunk, complete_chunked_upload).  Chunk files live beside a session
JSON file in CHUNK_FOLDER; both are modelled as explicit lists keyed by
upload id (and chunk number).  Chunk indices are `Int` because the handler
parses the form field with Python `int(...)`, which admits negatives. -/

/-- Upload limits from admin_api.py. -/
def MAX_FILE_SIZE : Nat := 10 * 1024 * 1024 * 1024

/-- The canonical chunk size answered by init (admin_api.py CHUNK_SIZE). -/
def CHUNK_SIZE : Nat := 10 * 1024 * 1024

/-- Maximum chunk count (admin_api.py MAX_CHUNKS). -/
def MAX_CHUNKS : Nat := 10000

/-- Characters after the last dot, or `none` when no dot occurs: the
`filename.rsplit('.', 1)[1]` extension access guarded by `'.' in filename`. -/
def after_last_dot : List Char → Option (List Char)
  | [] => none
  | c :: rest =>
    match after_last_dot rest with
    | some s => some s
    | none => if c == '.' then some rest else none

/-- ALLOWED_EXTENSIONS of admin_api.py, as character lists. -/
def allowed_exts : List (List Char) :=
  [['m', 'p', '4'], ['a', 'v', 'i'], ['m', 'o', 'v'], ['m', 'k', 'v'],
   ['w', 'e', 'b', 'm'], ['f', 'l', 'v'], ['w', 'm', 'v'], ['m', '4', 'v']]

/-- The admin_api.py allowed_file check: a dot occurs and the lower-cased
text after the last dot is an allowed extension. -/
def allowed_file (filename : String) : Bool :=
  match after_last_dot filename.data with
  | some ext => allowed_exts.contains (ext.map Char.toLower)
  | none => false

/-- The session JSON written by init and mutated by upload_chunk. -/
structure UploadSession where
  upload_id : String
  filename : String
  total_size : Nat
  total_chunks : Nat
  received_chunks : List Int
  name : String
  advertisement_id : String
  status : String
deriving DecidableEq, Repr

/-- Server-side state touched by the upload endpoints: session files, chunk
files (upload id, chunk number, bytes), merged files of UPLOAD_FOLDER by
name, and the advertisements collection that complete inserts into. -/
structure UploadFS where
  sessions : List UploadSession
  chunk_files : List (String × Int × List Nat)
  final_files : List (String × List Nat)
  ads : List Advertisement
deriving DecidableEq, Repr

/-- Request body of init_chunked_upload. -/
structure UploadInitRequest where
  filename : String
  total_size : Nat
  total_chunks : Nat
  name : String
  advertisement_id : Option String
deriving DecidableEq, Repr

/-- Response of init_chunked_upload. -/
inductive UploadInitResult where
  | error (message : String) (code : Nat)
  | ok (upload_id : String) (chunk_size : Nat)
deriving DecidableEq, Repr

/-- The advertisement-id collision loop of init_chunked_upload: while the id
exists, retry with `original-counter`; once the counter passes 100, give up
and use the random fallback id.  The fuel bounds the loop, which the counter
check exits after at most 100 rounds. -/
def resolve_ad_id_loop (existing : List String) (original fallback : String) :
    String → Nat → Nat → String
  | current, _, 0 => current
  | current, counter, fuel + 1 =>
    if existing.contains current then
      let current := original ++ "-" ++ toString counter
      let counter := counter + 1
      if counter > 100 then fallback
      else resolve_ad_id_loop existing original fallback current counter fuel
    else current

/-- Unique-id resolution entry point (counter starts at 1). -/
def resolve_advertisement_id (existing : List String) (adId fallback : String) : String :=
  resolve_ad_id_loop existing adId fallback adId 1 101

/-- The init_chunked_upload handler after JSON parsing.  `fresh_upload_id`,
`fresh_ad_id` and `fallback_ad_id` stand for the uuid4 values the source
draws.  Field-presence validation mirrors Python truthiness (empty string or
zero is missing).  Answers the response and the session list afterwards. -/
def init_chunked_upload (db_ad_ids : List String) (sessions : List UploadSession)
    (req : UploadInitRequest) (fresh_upload_id fresh_ad_id fallback_ad_id : String) :
    UploadInitResult × List UploadSession :=
  if req.filename == "" || req.total_size == 0 || req.total_chunks == 0 || req.name == "" then
    (.error "缺少必要欄位: filename, total_size, total_chunks, name" 400, sessions)
  else if !allowed_file req.filename then
    (.error "不支持的文件類型" 400, sessions)
  else if req.total_size > MAX_FILE_SIZE then
    (.error "文件太大，最大允許 10GB" 400, sessions)
  else if req.total_chunks > MAX_CHUNKS then
    (.error "分片數量過多，最大允許 10000 個分片" 400, sessions)
  else
    let baseAdId :=
      match req.advertisement_id with
      | some a => if a == "" then fresh_ad_id else a
      | none => fresh_ad_id
    let adId := resolve_advertisement_id db_ad_ids baseAdId fallback_ad_id
    let session : UploadSession :=
      { upload_id := fresh_upload_id
        filename := req.filename
        total_size := req.total_size
        total_chunks := req.total_chunks
        received_chunks := []
        name := req.name
        advertisement_id := adId
        status := "uploading" }
    (.ok fresh_upload_id CHUNK_SIZE, sessions ++ [session])

/-- Response of upload_chunk. -/
inductive UploadChunkResult where
  | error (message : String) (code : Nat)
  | ok (chunk_number : Int) (received_chunks : List Int) (total_chunks : Nat)
deriving DecidableEq, Repr

/-- Write or overwrite the chunk file at `(uid, n)`. -/
def set_chunk_file (files : List (String × Int × List Nat)) (uid : String) (n : Int)
    (bytes : List Nat) : List (String × Int × List Nat) :=
  (uid, n, bytes) :: files.filter (fun e => !(e.1 == uid && e.2.1 == n))

/-- The upload_chunk handler: 404 on an unknown session, reject only
`chunk_number >= total_chunks` (no lower bound), write the chunk file, add
the index to the received set when new (append then sort), rewrite the
session. -/
def upload_chunk (fs : UploadFS) (upload_id : String) (chunk_number : Int)
    (bytes : List Nat) : UploadChunkResult × UploadFS :=
  match fs.sessions.find? (fun s => s.upload_id == upload_id) with
  | none => (.error "上傳會話不存在或已過期" 404, fs)
  | some s =>
    if chunk_number ≥ (s.total_chunks : Int) then
      (.error ("分片編號超出範圍: " ++ toString chunk_number ++ " >= " ++ toString s.total_chunks) 400, fs)
    else
      let received :=
        if s.received_chunks.contains chunk_number then s.received_chunks
        else List.insertionSort (· ≤ ·) (s.received_chunks ++ [chunk_number])
      let fs :=
        { fs with
            chunk_files := set_chunk_file fs.chunk_files upload_id chunk_number bytes
            sessions := (updateFirst (fun t => t.upload_id == upload_id)
              (fun t => { t with received_chunks := received }) fs.sessions) }
      (.ok chunk_number received s.total_chunks, fs)

/-- Injected I/O failures for the merge step of complete_chunked_upload:
`open_fails` makes opening the final file raise, `read_fails i` makes the
read of chunk `i` (or the write of its bytes) raise. -/
structure MergeFaults where
  open_fails : Bool
  read_fails : Nat → Bool

/-- Fault-free I/O. -/
def noFaults : MergeFaults := { open_fails := false, read_fails := fun _ => false }

/-- The chunk-concatenation loop body of complete_chunked_upload: walk the
indices in order accumulating the written bytes; answer the final content on
success, or the error response together with the bytes already written when
a chunk file is absent or its read raises (the source returns from inside
the merge block in both cases). -/
def merge_chunks (files : List (String × Int × List Nat)) (uid : String)
    (read_fails : Nat → Bool) : List Nat → List Nat → List Nat ⊕ (String × Nat × List Nat)
  | [], acc => .inl acc
  | i :: rest, acc =>
    match files.find? (fun e => e.1 == uid && e.2.1 == (i : Int)) with
    | some e =>
      if read_fails i then .inr ("讀取分片 " ++ toString i ++ " 失敗", 500, acc)
      else merge_chunks files uid read_fails rest (acc ++ e.2.2)
    | none => .inr ("分片文件不存在: " ++ toString i, 500, acc)

/-- Create or truncate a file of UPLOAD_FOLDER. -/
def set_final_file (files : List (String × List Nat)) (name : String)
    (content : List Nat) : List (String × List Nat) :=
  (name, content) :: files.filter (fun e => !(e.1 == name))

/-- Python `str(sorted(missing))`, the payload of the IncompleteTransfer
message. -/
def int_list_str (l : List Int) : String :=
  "[" ++ String.intercalate ", " (l.map toString) ++ "]"

/-- Response of complete_chunked_upload. -/
inductive CompleteResult where
  | error (message : String) (code : Nat)
  | ok (filename : String) (size : Nat) (advertisement_id : String)
deriving DecidableEq, Repr

/-- Truth of a complete response. -/
def CompleteResult.isOk : CompleteResult → Bool
  | .ok _ _ _ => true
  | .error _ _ => false

/-- The complete_chunked_upload handler.  404 on an unknown session; reject
with the missing-chunk list unless the received set equals `[0, total)`
exactly; then merge chunk files in index order into `final_filename` (a
fresh uuid name).  A failure while opening the final file raises into the
outer handler, which removes the partial file; a failure on an individual
chunk returns from inside the merge block, leaving the partially-written
final file behind.  On success, register the advertisement, delete the chunk
files with indices in `[0, MAX_CHUNKS)` plus the session, and answer 201. -/
def complete_chunked_upload (fs : UploadFS) (upload_id final_filename : String)
    (faults : MergeFaults) : CompleteResult × UploadFS :=
  match fs.sessions.find? (fun s => s.upload_id == upload_id) with
  | none => (.error "上傳會話不存在或已過期" 404, fs)
  | some s =>
    let expected : List Int := (List.range s.total_chunks).map Int.ofNat
    let received := s.received_chunks
    if !(expected.all (fun i => received.contains i) &&
         received.all (fun i => expected.contains i)) then
      let missing := expected.filter (fun i => !received.contains i)
      (.error ("缺少分片: " ++ int_list_str missing) 400, fs)
    else if faults.open_fails then
      (.error "合併分片失敗" 500,
        { fs with final_files := fs.final_files.filter (fun e => !(e.1 == final_filename)) })
    else
      match merge_chunks fs.chunk_files upload_id faults.read_fails
          (List.range s.total_chunks) [] with
      | .inr (msg, code, written) =>
        (.error msg code,
          { fs with final_files := set_final_file fs.final_files final_filename written })
      | .inl content =>
        let file_size := content.length
        let ad : Advertisement :=
          { id := s.advertisement_id
            name := some s.name
            video_filename := some final_filename
            status := "active" }
        (.ok final_filename file_size s.advertisement_id,
          { fs with
              final_files := set_final_file fs.final_files final_filename content
              ads := fs.ads ++ [ad]
              chunk_files := (fs.chunk_files.filter
                (fun e => !(e.1 == upload_id && 0 ≤ e.2.1 && e.2.1 < (MAX_CHUNKS : Int))))
              sessions := fs.sessions.filter (fun t => !(t.upload_id == upload_id)) })

/-- Apply a sequence of upload_chunk calls (upload id, chunk number, bytes). -/
def apply_puts (fs : UploadFS) : List (String × Int × List Nat) → UploadFS
  | [] => fs
  | (u, i, b) :: rest => apply_puts (upload_chunk fs u i b).2 rest

/-! Device chunked-download endpoint (src/app.py,
device_download_video_chunk), after the advertisement and file-existence
lookups: parameter validation, chunk-size clamping and byte-range serving
over the asset file, modelled as its byte list. -/

/-- Response of device_download_video_chunk: either an error envelope or the
served bytes with the Content-Range / X-headers metadata. -/
inductive DownloadChunkResult where
  | error (message : String) (code : Nat)
  | ok (data : List Nat) (start_byte end_byte chunk_number total_chunks file_size : Nat)
deriving DecidableEq, Repr

/-- Clamping of the requested chunk size into [1MiB, 50MiB] (app.py). -/
def clamp_chunk_size (c : Nat) : Nat :=
  if c < 1024 * 1024 then 1024 * 1024
  else if c > 50 * 1024 * 1024 then 50 * 1024 * 1024
  else c

/-- The device_download_video_chunk handler: reject a negative chunk number
or a non-positive chunk size, clamp the chunk size, compute
`total_chunks = max 1 (ceil (file_size / chunk_size))`, reject
`chunk_number >= total_chunks`, and serve the byte range
`[chunk * size, min ((chunk + 1) * size) file_size)`. -/
def device_download_video_chunk (file : List Nat) (chunk_param chunk_size_param : Int) :
    DownloadChunkResult :=
  if chunk_param < 0 then .error "參數 chunk 不能為負數" 400
  else if chunk_size_param ≤ 0 then .error "參數 chunk_size 必須大於 0" 400
  else
    let chunk_number := chunk_param.toNat
    let chunk_size := clamp_chunk_size chunk_size_param.toNat
    let file_size := file.length
    let total_chunks := max 1 ((file_size + chunk_size - 1) / chunk_size)
    if chunk_number ≥ total_chunks then
      .error ("分片編號超出範圍: " ++ toString chunk_number ++ " >= " ++ toString total_chunks) 400
    else
      let start_byte := chunk_number * chunk_size
      let end_byte := min (start_byte + chunk_size) file_size
      .ok ((file.drop start_byte).take (end_byte - start_byte))
        start_byte end_byte chunk_number total_chunks file_size

/-! Specification-side characterisation of a successful decision, used to
state the rotation claim: it is written after the spec wording (scan forward
circularly from the stored index, select the first existing active
advertisement, persist `(selected + 1) mod N`) and is proved to hold of
`decide_ad`. -/

/-- Property of one successful `decide_ad` call, phrased after the spec:
some device is found; some campaign wins the priority selection among the
eligible ones; its effective ad list `ids` comes out of the legacy fallback;
the cursor is the stored rotation index (reset to 0 when out of range); the
decision is the first existing-and-active advertisement at
`(cursor + steps) % N` for the least such `steps`, every earlier probe
failing the active lookup; and the new state persists the rotation index
`(selected + 1) % N` on the winning campaign. -/
def RotationSpec (db : DB) (device_id : String) (pt : Point) (dec : Decision) (db2 : DB) : Prop :=
  ∃ device selected ids current steps idx ad,
    find_one_device db device_id = some device ∧
    max_by_priority (eligible_campaigns (update_device_location db device_id pt) device pt) =
      some selected ∧
    campaign_ad_ids selected = some ids ∧
    current = (if selected.current_ad_index.getD 0 ≥ ids.length then 0
               else selected.current_ad_index.getD 0) ∧
    steps < ids.length ∧
    idx = (current + steps) % ids.length ∧
    ids.get? idx = some dec.advertisement_id ∧
    find_one_active_ad (update_device_location db device_id pt) dec.advertisement_id = some ad ∧
    dec.video_filename = ad.video_filename.getD DEFAULT_VIDEO ∧
    dec.campaign_id = selected.id ∧
    dec.advertisement_ids = ids ∧
    (∀ j, j < steps → ∀ cid, ids.get? ((current + j) % ids.length) = some cid →
      find_one_active_ad (update_device_location db device_id pt) cid = none) ∧
    db2 = set_campaign_rotation_index (update_device_location db device_id pt) selected.id
      ((idx + 1) % ids.length)

/-- Relation between two upload filesystems: the session under `uid` (when
present in the first) is still present, with the same chunk total and a
received set that can only have grown. -/
def ReceivedSuperset (fs fs2 : UploadFS) (uid : String) : Prop :=
  ∀ s, fs.sessions.find? (fun t => t.upload_id == uid) = some s →
    ∃ s2, fs2.sessions.find? (fun t => t.upload_id == uid) = some s2 ∧
      s2.total_chunks = s.total_chunks ∧
      ∀ i, i ∈ s.received_chunks → i ∈ s2.received_chunks

/-! Concrete instances used by scenario conjuncts, counterexamples and
witnesses. -/

/-- Query point for the concrete scenarios (coordinates are immaterial). -/
def origin : Point := ⟨0, 0⟩

/-- Active advertisement A. -/
def adA : Advertisement :=
  { id := "ad-A", name := some "A", video_filename := some "a.mp4", status := "active" }

/-- Active advertisement B. -/
def adB : Advertisement :=
  { id := "ad-B", name := some "B", video_filename := some "b.mp4", status := "active" }

/-- Active advertisement C. -/
def adC : Advertisement :=
  { id := "ad-C", name := some "C", video_filename := some "c.mp4", status := "active" }

/-- Advertisement B taken off the air. -/
def adBoff : Advertisement := { adB with status := "inactive" }

/-- A registered device in group "general". -/
def dev1 : Device :=
  { id := "dev-1", device_type := "rooftop_display", groups := ["general"], last_location := none }

/-- Campaign cycling through [A, B, C], rotation index 0. -/
def campABC : Campaign :=
  { id := "camp-1", name := "abc", advertisement_ids := ["ad-A", "ad-B", "ad-C"]
    advertisement_id := none, priority := some 5, target_groups := ["general"]
    status := "active", current_ad_index := some 0 }

/-- Store for the three-step rotation scenario; every geofence matches. -/
def dbABC : DB :=
  { devices := [dev1], advertisements := [adA, adB, adC], campaigns := [campABC]
    geoIntersects := fun _ _ => true }

/-- Store where B is inactive and the rotation cursor starts at B. -/
def dbSkip : DB :=
  { devices := [dev1], advertisements := [adA, adBoff, adC]
    campaigns := [{ campABC with current_ad_index := some 1 }]
    geoIntersects := fun _ _ => true }

/-- Store with no device at all. -/
def dbNoDevice : DB :=
  { devices := [], advertisements := [], campaigns := [], geoIntersects := fun _ _ => true }

/-- Store where dev-1 exists but no campaign does. -/
def dbNoCampaign : DB :=
  { devices := [dev1], advertisements := [], campaigns := [], geoIntersects := fun _ _ => true }

/-- Eligible campaign of priority 5 playing A. -/
def camp5 : Campaign :=
  { campABC with id := "camp-5", priority := some 5, advertisement_ids := ["ad-A"] }

/-- Eligible campaign of priority 10 playing B. -/
def camp10 : Campaign :=
  { campABC with id := "camp-10", priority := some 10, advertisement_ids := ["ad-B"] }

/-- Store with two eligible campaigns of priorities 5 and 10. -/
def dbPrio : DB :=
  { devices := [dev1], advertisements := [adA, adB], campaigns := [camp5, camp10]
    geoIntersects := fun _ _ => true }

/-- Decision of the first call on `dbABC`. -/
def decABC : Decision :=
  { video_filename := "a.mp4", advertisement_id := "ad-A", advertisement_name := "A"
    campaign_id := "camp-1", advertisement_ids := ["ad-A", "ad-B", "ad-C"] }

/-- Store after the first call on `dbABC`. -/
def dbABC1 : DB := (decide_ad dbABC "dev-1" origin).2

/-- Decision of the call on `dbPrio`. -/
def decPrio : Decision :=
  { video_filename := "b.mp4", advertisement_id := "ad-B", advertisement_name := "B"
    campaign_id := "camp-10", advertisement_ids := ["ad-B"] }

/-- Store after the call on `dbPrio`. -/
def dbPrio1 : DB := (decide_ad dbPrio "dev-1" origin).2

/-- Init request of 11 GiB. -/
def req11G : UploadInitRequest :=
  { filename := "big.mp4", total_size := 11 * 1024 * 1024 * 1024, total_chunks := 5
    name := "big", advertisement_id := none }

/-- Init request of 10,001 chunks. -/
def reqManyChunks : UploadInitRequest :=
  { filename := "big.mp4", total_size := 5, total_chunks := 10001
    name := "big", advertisement_id := none }

/-- Two-chunk session with both chunks received. -/
def sess2 : UploadSession :=
  { upload_id := "u1", filename := "v.mp4", total_size := 5, total_chunks := 2
    received_chunks := [0, 1], name := "v", advertisement_id := "adv-1", status := "uploading" }

/-- Filesystem holding `sess2` and its two chunk files. -/
def fs2 : UploadFS :=
  { sessions := [sess2], chunk_files := [("u1", 0, [7, 7]), ("u1", 1, [8, 8, 8])]
    final_files := [], ads := [] }

/-- Faults making the read of chunk 1 raise. -/
def faultsRead1 : MergeFaults := { open_fails := false, read_fails := fun i => i == 1 }

/-- Three-chunk session missing exactly chunk 1. -/
def sessMissing : UploadSession := { sess2 with total_chunks := 3, received_chunks := [0, 2] }

/-- Filesystem holding `sessMissing`. -/
def fsMissing : UploadFS := { fs2 with sessions := [sessMissing] }

/-- Two-chunk session with nothing received yet. -/
def sessEmpty : UploadSession := { sess2 with received_chunks := [] }

/-- Filesystem holding `sessEmpty` and no chunk file. -/
def fsEmpty : UploadFS :=
  { sessions := [sessEmpty], chunk_files := [], final_files := [], ads := [] }

/-- Two-chunk session whose received set already holds the stray index -1. -/
def sessNeg : UploadSession := { sess2 with received_chunks := [-1] }

/-- Filesystem holding `sessNeg`. -/
def fsNeg : UploadFS :=
  { sessions := [sessNeg], chunk_files := [("u1", -1, [9])], final_files := [], ads := [] }

/-- Subsequent puts uploading every expected chunk of `sessNeg`. -/
def putsRest : List (String × Int × List Nat) := [("u1", 0, [7]), ("u1", 1, [8])]

/-- Registry state after re-registering handle H for another device. -/
def regHandleRebind : Registry :=
  run_registry { active_connections := [], device_to_sid := [] }
    [.register "H" "D1" 0, .register "H" "D2" 1]

/-- Benign operation sequence: device D reconnects on a fresh handle, then
the old handle unregisters. -/
def opsReconnect : List RegistryOp :=
  [.register "H1" "D" 0, .register "H2" "D" 1, .unregister "H1"]

/-- Campaign c1 for the deletion scenarios. -/
def campC1 : Campaign :=
  { id := "c1", name := "c", advertisement_ids := ["ad-A"], advertisement_id := none
    priority := some 1, target_groups := ["general"], status := "active"
    current_ad_index := some 0 }

/-- Cache where device d1 is locked onto campaign c1. -/
def lockedD1 : List (String × Option String) := [("d1", some "c1")]

/-- Cache where d1 and d2 are locked onto c1 and d3 onto c9. -/
def lockedThree : List (String × Option String) :=
  [("d1", some "c1"), ("d2", some "c1"), ("d3", some "c9")]

/-- Connection map where only d1 is online. -/
def sidsD1 : List (String × String) := [("d1", "S1")]

/-! Theorems.  Each claim of the specification is settled below; helper
lemmas shared between claims come first. -/

/-- Claim C1, counterexample.  The claim says a decision request for an
absent device fails with a DeviceNotFound error distinguishable from the
no-eligible-campaign outcome.  In the source, decide_ad answers the very
same None in both situations, and the heartbeat endpoint answers the same
404 device-not-found envelope for an existing device with no eligible
campaign, so the two outcomes are not distinguishable. -/
theorem C1_counterexample :
    (decide_ad dbNoDevice "dev-1" origin).1 = none ∧
    (decide_ad dbNoCampaign "dev-1" origin).1 = none ∧
    (device_heartbeat dbNoDevice "dev-1" origin).1 =
      (device_heartbeat dbNoCampaign "dev-1" origin).1 ∧
    (device_heartbeat dbNoCampaign "dev-1" origin).1 = .error "找不到設備: dev-1" 404 := by
  refine ⟨by decide, by decide, by decide, by decide⟩

/-- Claim C1 (amended): a decision request for an absent device yields the
None no-decision value — the same value as the no-eligible-campaign outcome
— and the HTTP heartbeat endpoint maps every None decision, whatever its
cause, to the one 404 device-not-found error envelope. -/
theorem C1_device_not_found (db : DB) (device_id : String) (pt : Point)
    (habs : find_one_device db device_id = none) :
    (decide_ad db device_id pt).1 = none ∧
    (device_heartbeat db device_id pt).1 = .error ("找不到設備: " ++ device_id) 404 ∧
    (∀ db2 : DB, (decide_ad db2 device_id pt).1 = none →
      (device_heartbeat db2 device_id pt).1 = .error ("找不到設備: " ++ device_id) 404) := by
  refine ⟨?_, ?_, ?_⟩
  · simp [decide_ad, habs]
  · simp [device_heartbeat, decide_ad, habs]
  · intro db2 h2
    simp only [device_heartbeat]
    rw [h2]

/-- Witness for C1_device_not_found at the empty store. -/
theorem C1_device_not_found_witness :
    (decide_ad dbNoDevice "dev-1" origin).1 = none ∧
    (device_heartbeat dbNoDevice "dev-1" origin).1 = .error ("找不到設備: " ++ "dev-1") 404 ∧
    (∀ db2 : DB, (decide_ad db2 "dev-1" origin).1 = none →
      (device_heartbeat db2 "dev-1" origin).1 = .error ("找不到設備: " ++ "dev-1") 404) :=
  C1_device_not_found dbNoDevice "dev-1" origin (by decide)

/-- The effective ad list produced by the legacy fallback is never empty. -/
theorem campaign_ad_ids_pos (c : Campaign) (ids : List String)
    (h : campaign_ad_ids c = some ids) : 0 < ids.length := by
  unfold campaign_ad_ids at h
  split at h
  · cases h
    next hne =>
      cases hid : c.advertisement_ids with
      | nil => rw [hid] at hne; simp at hne
      | cons a l => simp
  · split at h
    next adId =>
      split at h
      · cases h
      · cases h; simp
    next => cases h

/-- Characterisation of the rotation scan: a successful scan starting below
the list length answers the position of the first candidate whose active
lookup succeeds, walking `(cur + j) % length` forward, and every earlier
candidate fails the lookup. -/
theorem scan_ads_spec (db : DB) (ids : List String) :
    ∀ (k cur idx : Nat) (cid : String) (ad : Advertisement),
      cur < ids.length →
      scan_ads db ids cur k = some (idx, cid, ad) →
      ∃ steps, steps < k ∧ idx = (cur + steps) % ids.length ∧
        ids.get? idx = some cid ∧
        find_one_active_ad db cid = some ad ∧
        ∀ j, j < steps → ∀ cid2, ids.get? ((cur + j) % ids.length) = some cid2 →
          find_one_active_ad db cid2 = none := by
  intro k
  induction k with
  | zero => intro cur idx cid ad hcur h; simp [scan_ads] at h
  | succ k ih =>
    intro cur idx cid ad hcur h
    have hlen : 0 < ids.length := Nat.lt_of_le_of_lt (Nat.zero_le cur) hcur
    obtain ⟨c0, hc0⟩ : ∃ c0, ids.get? cur = some c0 := by
      cases hg : ids.get? cur with
      | none => rw [List.get?_eq_none] at hg; omega
      | some c0 => exact ⟨c0, rfl⟩
    rw [scan_ads, hc0] at h
    simp only [] at h
    cases hf : find_one_active_ad db c0 with
    | some ad0 =>
      rw [hf] at h
      simp only [Option.some.injEq, Prod.mk.injEq] at h
      obtain ⟨hidx, hcid, had⟩ := h
      refine ⟨0, Nat.succ_pos k, ?_, ?_, ?_, ?_⟩
      · rw [← hidx, Nat.add_zero, Nat.mod_eq_of_lt hcur]
      · rw [← hidx, hc0, hcid]
      · rw [← hcid, ← had]; exact hf
      · intro j hj; omega
    | none =>
      rw [hf] at h
      simp only [] at h
      have hcur2 : (cur + 1) % ids.length < ids.length := Nat.mod_lt _ hlen
      obtain ⟨steps, hsk, hidx, hget, hfind, hskip⟩ := ih ((cur + 1) % ids.length) idx cid ad hcur2 h
      refine ⟨steps + 1, by omega, ?_, hget, hfind, ?_⟩
      · rw [hidx, Nat.mod_add_mod]
        have : cur + 1 + steps = cur + (steps + 1) := by omega
        rw [this]
      · intro j hj cid2 hcid2
        cases j with
        | zero =>
          rw [Nat.add_zero, Nat.mod_eq_of_lt hcur, hc0] at hcid2
          injection hcid2 with h3
          rw [← h3]; exact hf
        | succ j =>
          have heq : (cur + (j + 1)) % ids.length = ((cur + 1) % ids.length + j) % ids.length := by
            rw [Nat.mod_add_mod]
            have : cur + 1 + j = cur + (j + 1) := by omega
            rw [this]
          rw [heq] at hcid2
          exact hskip j (by omega) cid2 hcid2

/-- Claim C2, general part: every successful decision satisfies the
spec-side rotation characterisation. -/
theorem decide_ad_rotation (db : DB) (device_id : String) (pt : Point)
    (dec : Decision) (db2 : DB)
    (h : decide_ad db device_id pt = (some dec, db2)) :
    RotationSpec db device_id pt dec db2 := by
  unfold decide_ad at h
  split at h
  next hdev => simp at h
  next device hdev =>
    simp only [] at h
    split at h
    next hmax => simp at h
    next selected hmax =>
      split at h
      next hids => simp at h
      next ids hids =>
        split at h
        next hscan => simp at h
        next idx cid ad hscan =>
          rw [Prod.mk.injEq] at h
          obtain ⟨hdec, hdb2⟩ := h
          injection hdec with hdec
          have hlen : 0 < ids.length := campaign_ad_ids_pos selected ids hids
          have hcur : (if selected.current_ad_index.getD 0 ≥ ids.length then 0
              else selected.current_ad_index.getD 0) < ids.length := by
            split
            · exact hlen
            next hge => omega
          obtain ⟨steps, hsk, hidx, hget, hfind, hskip⟩ :=
            scan_ads_spec (update_device_location db device_id pt) ids ids.length
              (if selected.current_ad_index.getD 0 ≥ ids.length then 0
               else selected.current_ad_index.getD 0) idx cid ad hcur hscan
          refine ⟨device, selected, ids,
            (if selected.current_ad_index.getD 0 ≥ ids.length then 0
             else selected.current_ad_index.getD 0), steps, idx, ad,
            hdev, hmax, hids, rfl, hsk, hidx, ?_, ?_, ?_, ?_, ?_, ?_, ?_⟩
          · rw [hget, ← hdec]
          · rw [← hdec]; exact hfind
          · rw [← hdec]
          · rw [← hdec]
          · rw [← hdec]
          · exact hskip
          · rw [← hdb2]

/-- Claim C2: rotation correctness of the decision engine — the general
characterisation of a successful decision (circular scan from the stored
index, first existing active advertisement wins, index persisted as
`(selected + 1) mod N`), the three-step scenario on ad list [A, B, C] with
rotation index 0 (decisions A, B, C, then A again), and the skip scenario
(rotation starting at inactive B selects C and persists the wrapped index). -/
theorem C2_rotation :
    (∀ db device_id pt dec db2, decide_ad db device_id pt = (some dec, db2) →
      RotationSpec db device_id pt dec db2) ∧
    ((decide_ad dbABC "dev-1" origin).1.map Decision.advertisement_id = some "ad-A" ∧
     (decide_ad (decide_ad dbABC "dev-1" origin).2 "dev-1" origin).1.map
       Decision.advertisement_id = some "ad-B" ∧
     (decide_ad (decide_ad (decide_ad dbABC "dev-1" origin).2 "dev-1" origin).2
       "dev-1" origin).1.map Decision.advertisement_id = some "ad-C" ∧
     (decide_ad (decide_ad (decide_ad (decide_ad dbABC "dev-1" origin).2 "dev-1"
       origin).2 "dev-1" origin).2 "dev-1" origin).1.map Decision.advertisement_id =
       some "ad-A") ∧
    ((decide_ad dbSkip "dev-1" origin).1.map Decision.advertisement_id = some "ad-C" ∧
     (decide_ad dbSkip "dev-1" origin).2.campaigns.map Campaign.current_ad_index = [some 0]) := by
  refine ⟨decide_ad_rotation, ⟨by decide, by decide, by decide, by decide⟩, by decide, by decide⟩

/-- Witness for C2_rotation at the concrete [A, B, C] scenario. -/
theorem C2_rotation_witness :
    decide_ad dbABC "dev-1" origin = (some decABC, dbABC1) ∧
    RotationSpec dbABC "dev-1" origin decABC dbABC1 := by
  have h : decide_ad dbABC "dev-1" origin = (some decABC, dbABC1) := by
    have h1 : (decide_ad dbABC "dev-1" origin).1 = some decABC := by decide
    calc decide_ad dbABC "dev-1" origin
        = ((decide_ad dbABC "dev-1" origin).1, (decide_ad dbABC "dev-1" origin).2) := rfl
      _ = (some decABC, dbABC1) := by rw [h1]; rfl
  exact ⟨h, C2_rotation.1 dbABC "dev-1" origin decABC dbABC1 h⟩

/-- The running best of the Python max fold is the first element of maximal
key: it is the seed or a list element, at least as large as the seed, and at
least as large as every list element. -/
theorem foldl_best_spec (l : List Campaign) :
    ∀ b : Campaign,
      (l.foldl (fun best x => if priorityOf x > priorityOf best then x else best) b = b ∨
       l.foldl (fun best x => if priorityOf x > priorityOf best then x else best) b ∈ l) ∧
      priorityOf b ≤
        priorityOf (l.foldl (fun best x => if priorityOf x > priorityOf best then x else best) b) ∧
      ∀ x ∈ l, priorityOf x ≤
        priorityOf (l.foldl (fun best x => if priorityOf x > priorityOf best then x else best) b) := by
  induction l with
  | nil => intro b; simp
  | cons a l ih =>
    intro b
    simp only [List.foldl_cons]
    by_cases hab : priorityOf a > priorityOf b
    · rw [if_pos hab]
      obtain ⟨hm, hge, hall⟩ := ih a
      refine ⟨?_, le_trans (le_of_lt hab) hge, ?_⟩
      · cases hm with
        | inl he => right; rw [he]; exact List.mem_cons_self a l
        | inr hm => exact Or.inr (List.mem_cons_of_mem a hm)
      · intro x hx
        cases List.mem_cons.mp hx with
        | inl hxa => rw [hxa]; exact hge
        | inr hxl => exact hall x hxl
    · rw [if_neg hab]
      obtain ⟨hm, hge, hall⟩ := ih b
      refine ⟨?_, hge, ?_⟩
      · cases hm with
        | inl he => exact Or.inl he
        | inr hm => exact Or.inr (List.mem_cons_of_mem a hm)
      · intro x hx
        cases List.mem_cons.mp hx with
        | inl hxa => rw [hxa]; exact le_trans (not_lt.mp hab) hge
        | inr hxl => exact hall x hxl

/-- A successful priority selection answers an element of the list whose
priority no list element strictly exceeds. -/
theorem max_by_priority_spec (l : List Campaign) (c : Campaign)
    (h : max_by_priority l = some c) :
    c ∈ l ∧ ∀ x ∈ l, priorityOf x ≤ priorityOf c := by
  cases l with
  | nil => cases h
  | cons a l =>
    rw [max_by_priority] at h
    injection h with h
    obtain ⟨hm, hge, hall⟩ := foldl_best_spec l a
    rw [h] at hm hge hall
    constructor
    · cases hm with
      | inl he => rw [he]; exact List.mem_cons_self a l
      | inr hm => exact List.mem_cons_of_mem a hm
    · intro x hx
      cases List.mem_cons.mp hx with
      | inl hxa => rw [hxa]; exact hge
      | inr hxl => exact hall x hxl

/-- Every eligible campaign shares a group with the device. -/
theorem eligible_groups (db : DB) (device : Device) (pt : Point) (c : Campaign)
    (h : c ∈ eligible_campaigns db device pt) :
    ∃ g, g ∈ device.groups ∧ g ∈ c.target_groups := by
  unfold eligible_campaigns at h
  obtain ⟨hmem, hp⟩ := List.mem_filter.mp h
  rw [List.any_eq_true] at hp
  obtain ⟨g, hg, hgt⟩ := hp
  exact ⟨g, hg, by simpa using hgt⟩

/-- Claim C6: every successful decision picks a campaign that is eligible
(geofence-matching, active, group-intersecting with the device) and of
maximal priority among the eligible ones; in the concrete store with
eligible priorities 5 and 10, campaign camp-10 wins. -/
theorem C6_priority_selection :
    (∀ db device_id pt dec db2, decide_ad db device_id pt = (some dec, db2) →
      ∃ device selected,
        find_one_device db device_id = some device ∧
        dec.campaign_id = selected.id ∧
        selected ∈ eligible_campaigns (update_device_location db device_id pt) device pt ∧
        (∃ g, g ∈ device.groups ∧ g ∈ selected.target_groups) ∧
        ∀ c ∈ eligible_campaigns (update_device_location db device_id pt) device pt,
          priorityOf c ≤ priorityOf selected) ∧
    (decide_ad dbPrio "dev-1" origin).1.map Decision.campaign_id = some "camp-10" := by
  constructor
  · intro db device_id pt dec db2 h
    unfold decide_ad at h
    split at h
    next hdev => simp at h
    next device hdev =>
      simp only [] at h
      split at h
      next hmax => simp at h
      next selected hmax =>
        split at h
        next hids => simp at h
        next ids hids =>
          split at h
          next hscan => simp at h
          next idx cid ad hscan =>
            rw [Prod.mk.injEq] at h
            obtain ⟨hdec, hdb2⟩ := h
            injection hdec with hdec
            obtain ⟨hmem, hall⟩ := max_by_priority_spec _ selected hmax
            exact ⟨device, selected, hdev, by rw [← hdec], hmem,
              eligible_groups _ _ _ _ hmem, hall⟩
  · decide

/-- Witness for C6_priority_selection at the priority 5 versus 10 store. -/
theorem C6_priority_selection_witness :
    ∃ device selected,
      find_one_device dbPrio "dev-1" = some device ∧
      decPrio.campaign_id = selected.id ∧
      selected ∈ eligible_campaigns (update_device_location dbPrio "dev-1" origin) device origin ∧
      (∃ g, g ∈ device.groups ∧ g ∈ selected.target_groups) ∧
      ∀ c ∈ eligible_campaigns (update_device_location dbPrio "dev-1" origin) device origin,
        priorityOf c ≤ priorityOf selected := by
  have h : decide_ad dbPrio "dev-1" origin = (some decPrio, dbPrio1) := by
    have h1 : (decide_ad dbPrio "dev-1" origin).1 = some decPrio := by decide
    calc decide_ad dbPrio "dev-1" origin
        = ((decide_ad dbPrio "dev-1" origin).1, (decide_ad dbPrio "dev-1" origin).2) := rfl
      _ = (some decPrio, dbPrio1) := by rw [h1]; rfl
  exact C6_priority_selection.1 dbPrio "dev-1" origin decPrio dbPrio1 h

/-- Claim C7: an init request (with its mandatory fields present and an
allowed file type) whose total size exceeds the 10 GiB cap is rejected with
the size-exceeded error, and one within the size cap whose chunk count
exceeds 10,000 is rejected with the count-exceeded error; in both cases the
session store is returned unchanged, so no session is created and no state
is mutated. -/
theorem C7_init_limits (db_ad_ids : List String) (sessions : List UploadSession)
    (req : UploadInitRequest) (u a f : String)
    (hfn : req.filename ≠ "") (hts : req.total_size ≠ 0) (htc : req.total_chunks ≠ 0)
    (hname : req.name ≠ "") (hext : allowed_file req.filename = true) :
    (MAX_FILE_SIZE < req.total_size →
      init_chunked_upload db_ad_ids sessions req u a f =
        (.error "文件太大，最大允許 10GB" 400, sessions)) ∧
    (req.total_size ≤ MAX_FILE_SIZE → MAX_CHUNKS < req.total_chunks →
      init_chunked_upload db_ad_ids sessions req u a f =
        (.error "分片數量過多，最大允許 10000 個分片" 400, sessions)) := by
  have h1 : (req.filename == "" || req.total_size == 0 || req.total_chunks == 0 ||
      req.name == "") = false := by
    simp only [Bool.or_eq_false_iff, beq_eq_false_iff_ne, ne_eq]
    exact ⟨⟨⟨hfn, hts⟩, htc⟩, hname⟩
  constructor
  · intro hgt
    unfold init_chunked_upload
    rw [h1, hext]
    simp only [Bool.false_eq_true, Bool.not_true, if_false]
    rw [if_pos hgt]
  · intro hle hgt
    unfold init_chunked_upload
    rw [h1, hext]
    simp only [Bool.false_eq_true, Bool.not_true, if_false]
    rw [if_neg (Nat.not_lt.mpr hle), if_pos hgt]

/-- Witness for C7_init_limits at the 11 GiB and 10,001 chunk requests. -/
theorem C7_init_limits_witness :
    init_chunked_upload [] [] req11G "u" "a" "f" =
      (.error "文件太大，最大允許 10GB" 400, []) ∧
    init_chunked_upload [] [] reqManyChunks "u" "a" "f" =
      (.error "分片數量過多，最大允許 10000 個分片" 400, []) :=
  ⟨(C7_init_limits [] [] req11G "u" "a" "f" (by decide) (by decide) (by decide) (by decide)
      (by decide)).1 (by decide),
   (C7_init_limits [] [] reqManyChunks "u" "a" "f" (by decide) (by decide) (by decide)
      (by decide) (by decide)).2 (by decide) (by decide)⟩

/-- Claim C8: for a download request over a file of size S with a positive
requested chunk size, the clamped chunk size c lies in [1MiB, 50MiB], the
reported chunk total is max 1 (ceil (S / c)) and is never zero, a request
for index i below the total serves exactly the bytes of
`[i * c, min ((i + 1) * c) S)` (with the range metadata), and a request at
or beyond the total is rejected. -/
theorem C8_download_range (file : List Nat) (csp : Int) (hcsp : 0 < csp) :
    (1024 * 1024 ≤ clamp_chunk_size csp.toNat ∧
      clamp_chunk_size csp.toNat ≤ 50 * 1024 * 1024) ∧
    0 < max 1 ((file.length + clamp_chunk_size csp.toNat - 1) / clamp_chunk_size csp.toNat) ∧
    (∀ i : Int, 0 ≤ i →
      i.toNat < max 1 ((file.length + clamp_chunk_size csp.toNat - 1) / clamp_chunk_size csp.toNat) →
      ∃ data,
        device_download_video_chunk file i csp =
          .ok data (i.toNat * clamp_chunk_size csp.toNat)
            (min (i.toNat * clamp_chunk_size csp.toNat + clamp_chunk_size csp.toNat) file.length)
            i.toNat
            (max 1 ((file.length + clamp_chunk_size csp.toNat - 1) / clamp_chunk_size csp.toNat))
            file.length ∧
        data.length = min (i.toNat * clamp_chunk_size csp.toNat + clamp_chunk_size csp.toNat)
            file.length - i.toNat * clamp_chunk_size csp.toNat ∧
        ∀ j, j < data.length →
          data.get? j = file.get? (i.toNat * clamp_chunk_size csp.toNat + j)) ∧
    (∀ i : Int, 0 ≤ i →
      max 1 ((file.length + clamp_chunk_size csp.toNat - 1) / clamp_chunk_size csp.toNat) ≤ i.toNat →
      device_download_video_chunk file i csp =
        .error ("分片編號超出範圍: " ++ toString i.toNat ++ " >= " ++
          toString (max 1 ((file.length + clamp_chunk_size csp.toNat - 1) /
            clamp_chunk_size csp.toNat))) 400) := by
  refine ⟨?_, ?_, ?_, ?_⟩
  · unfold clamp_chunk_size
    split
    · omega
    · split <;> omega
  · exact lt_of_lt_of_le one_pos (le_max_left _ _)
  · intro i hi hlt
    unfold device_download_video_chunk
    rw [if_neg (by omega : ¬ i < 0), if_neg (by omega : ¬ csp ≤ 0)]
    simp only []
    rw [if_neg (by omega : ¬ i.toNat ≥
      max 1 ((file.length + clamp_chunk_size csp.toNat - 1) / clamp_chunk_size csp.toNat))]
    refine ⟨_, rfl, ?_, ?_⟩
    · rw [List.length_take, List.length_drop]
      exact min_eq_left (Nat.sub_le_sub_right (min_le_right _ _) _)
    · intro j hj
      rw [List.length_take, List.length_drop] at hj
      rw [List.get?_take (lt_of_lt_of_le hj (min_le_left _ _)), List.get?_drop]
  · intro i hi hge
    unfold device_download_video_chunk
    rw [if_neg (by omega : ¬ i < 0), if_neg (by omega : ¬ csp ≤ 0)]
    simp only []
    rw [if_pos (by omega : i.toNat ≥
      max 1 ((file.length + clamp_chunk_size csp.toNat - 1) / clamp_chunk_size csp.toNat))]

/-- Witness for C8_download_range on a three-byte file with a 2 MiB request. -/
theorem C8_download_range_witness :
    (1024 * 1024 ≤ clamp_chunk_size (Int.toNat (2 * 1024 * 1024)) ∧
      clamp_chunk_size (Int.toNat (2 * 1024 * 1024)) ≤ 50 * 1024 * 1024) ∧
    0 < max 1 ((([1, 2, 3] : List Nat).length + clamp_chunk_size (Int.toNat (2 * 1024 * 1024)) - 1) /
      clamp_chunk_size (Int.toNat (2 * 1024 * 1024))) ∧
    (∀ i : Int, 0 ≤ i →
      i.toNat < max 1 ((([1, 2, 3] : List Nat).length + clamp_chunk_size (Int.toNat (2 * 1024 * 1024)) - 1) /
        clamp_chunk_size (Int.toNat (2 * 1024 * 1024))) →
      ∃ data,
        device_download_video_chunk [1, 2, 3] i (2 * 1024 * 1024) =
          .ok data (i.toNat * clamp_chunk_size (Int.toNat (2 * 1024 * 1024)))
            (min (i.toNat * clamp_chunk_size (Int.toNat (2 * 1024 * 1024)) +
               clamp_chunk_size (Int.toNat (2 * 1024 * 1024))) ([1, 2, 3] : List Nat).length)
            i.toNat
            (max 1 ((([1, 2, 3] : List Nat).length + clamp_chunk_size (Int.toNat (2 * 1024 * 1024)) - 1) /
              clamp_chunk_size (Int.toNat (2 * 1024 * 1024))))
            ([1, 2, 3] : List Nat).length ∧
        data.length = min (i.toNat * clamp_chunk_size (Int.toNat (2 * 1024 * 1024)) +
            clamp_chunk_size (Int.toNat (2 * 1024 * 1024))) ([1, 2, 3] : List Nat).length -
            i.toNat * clamp_chunk_size (Int.toNat (2 * 1024 * 1024)) ∧
        ∀ j, j < data.length →
          data.get? j = ([1, 2, 3] : List Nat).get? (i.toNat * clamp_chunk_size (Int.toNat (2 * 1024 * 1024)) + j)) ∧
    (∀ i : Int, 0 ≤ i →
      max 1 ((([1, 2, 3] : List Nat).length + clamp_chunk_size (Int.toNat (2 * 1024 * 1024)) - 1) /
        clamp_chunk_size (Int.toNat (2 * 1024 * 1024))) ≤ i.toNat →
      device_download_video_chunk [1, 2, 3] i (2 * 1024 * 1024) =
        .error ("分片編號超出範圍: " ++ toString i.toNat ++ " >= " ++
          toString (max 1 ((([1, 2, 3] : List Nat).length + clamp_chunk_size (Int.toNat (2 * 1024 * 1024)) - 1) /
            clamp_chunk_size (Int.toNat (2 * 1024 * 1024))))) 400) :=
  C8_download_range [1, 2, 3] (2 * 1024 * 1024) (by decide)

/-- Membership of the expected index list `[0, n)` of complete. -/
theorem mem_range_map_ofNat (n : Nat) (i : Int) :
    i ∈ (List.range n).map Int.ofNat ↔ 0 ≤ i ∧ i < (n : Int) := by
  simp only [List.mem_map, List.mem_range]
  constructor
  · rintro ⟨k, hk, rfl⟩
    constructor
    · exact Int.ofNat_nonneg k
    · rw [Int.ofNat_eq_coe]
      exact_mod_cast hk
  · rintro ⟨h0, hn⟩
    refine ⟨i.toNat, ?_, ?_⟩
    · omega
    · rw [Int.ofNat_eq_coe]
      omega

/-- The completeness check of complete_chunked_upload passes exactly when
the received set equals the index range `[0, n)`. -/
theorem complete_check_iff (n : Nat) (received : List Int) :
    (((List.range n).map Int.ofNat).all (fun i => received.contains i) &&
      received.all (fun i => ((List.range n).map Int.ofNat).contains i)) = true ↔
    (∀ i : Int, i ∈ received ↔ 0 ≤ i ∧ i < (n : Int)) := by
  rw [Bool.and_eq_true, List.all_eq_true, List.all_eq_true]
  constructor
  · rintro ⟨h1, h2⟩ i
    constructor
    · intro hi
      have := h2 i hi
      rw [List.elem_iff, mem_range_map_ofNat] at this
      exact this
    · intro hi
      have := h1 i ((mem_range_map_ofNat n i).mpr hi)
      rwa [List.elem_iff] at this
  · intro hset
    constructor
    · intro i hi
      rw [List.elem_iff]
      exact (hset i).mpr ((mem_range_map_ofNat n i).mp hi)
    · intro i hi
      rw [List.elem_iff, mem_range_map_ofNat]
      exact (hset i).mp hi

/-- When no read fault fires and every listed chunk file exists, the merge
loop succeeds. -/
theorem merge_chunks_ok (files : List (String × Int × List Nat)) (uid : String)
    (rf : Nat → Bool) :
    ∀ (idxs : List Nat) (acc : List Nat),
      (∀ i ∈ idxs, rf i = false) →
      (∀ i ∈ idxs, (files.find? (fun e => e.1 == uid && e.2.1 == (i : Int))).isSome) →
      ∃ content, merge_chunks files uid rf idxs acc = .inl content := by
  intro idxs
  induction idxs with
  | nil => intro acc _ _; exact ⟨acc, rfl⟩
  | cons i rest ih =>
    intro acc hrf h
    have hi := h i (List.mem_cons_self i rest)
    cases hf : files.find? (fun e => e.1 == uid && e.2.1 == (i : Int)) with
    | none => rw [hf] at hi; cases hi
    | some e =>
      rw [merge_chunks, hf]
      simp only []
      rw [hrf i (List.mem_cons_self i rest)]
      simp only [Bool.false_eq_true, if_false]
      exact ih (acc ++ e.2.2) (fun j hj => hrf j (List.mem_cons_of_mem i hj))
        (fun j hj => h j (List.mem_cons_of_mem i hj))

/-- Claim C3: with every expected chunk file on disk and no I/O fault,
complete succeeds exactly when the received set equals `{0, ..., n-1}`;
otherwise it fails with the IncompleteTransfer message listing exactly the
missing indices (the sorted elements of `[0, n)` not received); in the
concrete three-chunk session holding chunks 0 and 2 the message lists
exactly the one missing index 1. -/
theorem C3_complete_exactness (fs : UploadFS) (uid fname : String) (s : UploadSession)
    (n : Nat)
    (hs : fs.sessions.find? (fun t => t.upload_id == uid) = some s)
    (hn : s.total_chunks = n)
    (hchunks : ∀ i : Nat, i < n →
      (fs.chunk_files.find? (fun e => e.1 == uid && e.2.1 == (i : Int))).isSome) :
    ((complete_chunked_upload fs uid fname noFaults).1.isOk = true ↔
      (∀ i : Int, i ∈ s.received_chunks ↔ 0 ≤ i ∧ i < (n : Int))) ∧
    (¬ (∀ i : Int, i ∈ s.received_chunks ↔ 0 ≤ i ∧ i < (n : Int)) →
      (complete_chunked_upload fs uid fname noFaults).1 =
        .error ("缺少分片: " ++ int_list_str
          (((List.range n).map Int.ofNat).filter (fun i => !s.received_chunks.contains i))) 400 ∧
      ∀ i : Int,
        i ∈ ((List.range n).map Int.ofNat).filter (fun i => !s.received_chunks.contains i) ↔
          (0 ≤ i ∧ i < (n : Int) ∧ i ∉ s.received_chunks)) ∧
    (complete_chunked_upload fsMissing "u1" "f.mp4" noFaults).1 = .error "缺少分片: [1]" 400 := by
  subst hn
  have hmemfilter : ∀ i : Int,
      i ∈ ((List.range s.total_chunks).map Int.ofNat).filter
        (fun i => !s.received_chunks.contains i) ↔
      (0 ≤ i ∧ i < (s.total_chunks : Int) ∧ i ∉ s.received_chunks) := by
    intro i
    rw [List.mem_filter, mem_range_map_ofNat]
    constructor
    · rintro ⟨⟨h0, hlt⟩, hnc⟩
      refine ⟨h0, hlt, ?_⟩
      intro hmem
      rw [Bool.not_eq_true', ← Bool.not_eq_true] at hnc
      exact hnc (by rwa [List.elem_iff])
    · rintro ⟨h0, hlt, hnm⟩
      refine ⟨⟨h0, hlt⟩, ?_⟩
      rw [Bool.not_eq_true']
      rw [← Bool.not_eq_true]
      intro hc
      exact hnm (by rwa [List.elem_iff] at hc)
  cases hb : (((List.range s.total_chunks).map Int.ofNat).all
        (fun i => s.received_chunks.contains i) &&
      s.received_chunks.all
        (fun i => ((List.range s.total_chunks).map Int.ofNat).contains i)) with
  | true =>
    have hset := (complete_check_iff s.total_chunks s.received_chunks).mp hb
    obtain ⟨content, hm⟩ := merge_chunks_ok fs.chunk_files uid noFaults.read_fails
      (List.range s.total_chunks) [] (fun i _ => rfl)
      (fun i hi => hchunks i (List.mem_range.mp hi))
    have hC : (complete_chunked_upload fs uid fname noFaults).1 =
        .ok fname content.length s.advertisement_id := by
      unfold complete_chunked_upload
      rw [hs]
      simp only []
      rw [hb]
      simp only [Bool.not_true, Bool.false_eq_true, if_false]
      rw [hm]
      simp [noFaults]
    refine ⟨⟨fun _ => hset, fun _ => by rw [hC]; rfl⟩, fun hne => absurd hset hne, by decide⟩
  | false =>
    have hnset : ¬ (∀ i : Int, i ∈ s.received_chunks ↔ 0 ≤ i ∧ i < (s.total_chunks : Int)) := by
      intro hset
      rw [(complete_check_iff s.total_chunks s.received_chunks).mpr hset] at hb
      cases hb
    have hC : (complete_chunked_upload fs uid fname noFaults).1 =
        .error ("缺少分片: " ++ int_list_str
          (((List.range s.total_chunks).map Int.ofNat).filter
            (fun i => !s.received_chunks.contains i))) 400 := by
      unfold complete_chunked_upload
      rw [hs]
      simp only []
      rw [hb]
      simp only [Bool.not_false, if_true]
    refine ⟨⟨fun hok => ?_, fun hset => absurd hset hnset⟩,
      fun _ => ⟨hC, hmemfilter⟩, by decide⟩
    rw [hC] at hok
    cases hok

/-- Witness for C3_complete_exactness at the complete two-chunk session. -/
theorem C3_complete_exactness_witness :
    ((complete_chunked_upload fs2 "u1" "final.mp4" noFaults).1.isOk = true ↔
      (∀ i : Int, i ∈ sess2.received_chunks ↔ 0 ≤ i ∧ i < (2 : Int))) ∧
    (¬ (∀ i : Int, i ∈ sess2.received_chunks ↔ 0 ≤ i ∧ i < (2 : Int)) →
      (complete_chunked_upload fs2 "u1" "final.mp4" noFaults).1 =
        .error ("缺少分片: " ++ int_list_str
          (((List.range 2).map Int.ofNat).filter (fun i => !sess2.received_chunks.contains i))) 400 ∧
      ∀ i : Int,
        i ∈ ((List.range 2).map Int.ofNat).filter (fun i => !sess2.received_chunks.contains i) ↔
          (0 ≤ i ∧ i < (2 : Int) ∧ i ∉ sess2.received_chunks)) ∧
    (complete_chunked_upload fsMissing "u1" "f.mp4" noFaults).1 = .error "缺少分片: [1]" 400 :=
  C3_complete_exactness fs2 "u1" "final.mp4" sess2 2 (by decide) rfl (by decide)

/-- Claim C4, evaluation at the failing input.  On the two-chunk session
with every chunk present, an I/O failure while reading chunk 1 during
concatenation makes complete answer a 500 error and leaves the session
record and the chunk files intact — but the partially-written final file,
holding the bytes of chunk 0, remains on disk instead of being rolled back:
the per-chunk failure returns from inside the merge block and bypasses the
cleanup of the outer exception handler. -/
theorem C4_merge_failure_leaves_partial_file :
    (complete_chunked_upload fs2 "u1" "final.mp4" faultsRead1).1 =
      .error "讀取分片 1 失敗" 500 ∧
    (complete_chunked_upload fs2 "u1" "final.mp4" faultsRead1).2.sessions = [sess2] ∧
    (complete_chunked_upload fs2 "u1" "final.mp4" faultsRead1).2.chunk_files = fs2.chunk_files ∧
    (complete_chunked_upload fs2 "u1" "final.mp4" faultsRead1).2.final_files =
      [("final.mp4", [7, 7])] ∧
    (complete_chunked_upload fs2 "u1" "final.mp4" faultsRead1).2.final_files ≠ [] := by
  refine ⟨by decide, by decide, by decide, by decide, by decide⟩

/-- Claim C5, counterexample.  Device d1 is locked onto campaign c1 (it is
reported among the affected devices), yet deleting c1 sends it no
revert_to_local_playlist notification, because d1 has no live connection:
the handler only emits to devices that resolve to a session id, and in the
wired application the campaign-state cache is not even supplied. -/
theorem C5_counterexample :
    (delete_campaign [campC1] (some lockedD1) [] "c1").outcome = .ok ["d1"] ∧
    (delete_campaign [campC1] (some lockedD1) [] "c1").notified = [] := by
  refine ⟨by decide, by decide⟩

/-- Claim C5 (amended): when the campaign exists and the campaign-state
cache is supplied, the revert notification is emitted to exactly the devices
whose locked campaign equals the deleted id and which resolve to a live
connection — locked devices without a live session, and all other devices,
get nothing; and with the cache absent (as in the app.py wiring of
init_admin_api) no device is notified at all. -/
theorem C5_delete_campaign_notify (campaigns : List Campaign)
    (st : List (String × Option String)) (sids : List (String × String))
    (cid : String) (c : Campaign)
    (hfind : campaigns.find? (fun x => x.id == cid) = some c) :
    (∀ d, d ∈ (delete_campaign campaigns (some st) sids cid).notified ↔
      ((d, some cid) ∈ st ∧ (alist_get sids d).isSome)) ∧
    (delete_campaign campaigns none sids cid).notified = [] := by
  constructor
  · intro d
    unfold delete_campaign
    rw [hfind]
    simp only []
    rw [List.mem_filter, List.mem_map]
    constructor
    · rintro ⟨⟨e, he, rfl⟩, hsome⟩
      obtain ⟨hest, heq⟩ := List.mem_filter.mp he
      have h2 : e.2 = some cid := by simpa using heq
      refine ⟨?_, hsome⟩
      have : e = (e.1, some cid) := by rw [← h2]
      rw [← this]
      exact hest
    · rintro ⟨hmem, hsome⟩
      exact ⟨⟨(d, some cid), List.mem_filter.mpr ⟨hmem, by simp⟩, rfl⟩, hsome⟩
  · unfold delete_campaign
    rw [hfind]

/-- Witness for C5_delete_campaign_notify: of the three cached devices, d1
and d2 are locked onto c1 but only d1 is online, so exactly d1 is notified. -/
theorem C5_delete_campaign_notify_witness :
    (∀ d, d ∈ (delete_campaign [campC1] (some lockedThree) sidsD1 "c1").notified ↔
      ((d, some "c1") ∈ lockedThree ∧ (alist_get sidsD1 d).isSome)) ∧
    (delete_campaign [campC1] none sidsD1 "c1").notified = [] :=
  C5_delete_campaign_notify [campC1] lockedThree sidsD1 "c1" campC1 (by decide)

/-- Lookup in a cons dict. -/
theorem alist_get_cons (e : String × α) (l : List (String × α)) (k : String) :
    alist_get (e :: l) k = if e.1 = k then some e.2 else alist_get l k := by
  unfold alist_get
  by_cases h : e.1 = k
  · rw [List.find?_cons_of_pos _ (by simp [h]), if_pos h]
    rfl
  · rw [List.find?_cons_of_neg _ (by simp [h]), if_neg h]

/-- Lookup after a dict assignment. -/
theorem alist_get_insert (l : List (String × α)) (k k2 : String) (v : α) :
    alist_get (alist_insert l k v) k2 = if k2 = k then some v else alist_get l k2 := by
  induction l with
  | nil =>
    rw [alist_insert, alist_get_cons]
    by_cases h : k2 = k
    · rw [if_pos h.symm, if_pos h]
    · rw [if_neg (fun he => h he.symm), if_neg h]
  | cons e rest ih =>
    rw [alist_insert]
    by_cases hek : e.1 = k
    · rw [if_pos (by simpa using hek), alist_get_cons, alist_get_cons]
      by_cases h2 : k2 = k
      · rw [if_pos h2.symm, if_pos h2]
      · rw [if_neg (fun he => h2 he.symm), if_neg h2,
          if_neg (fun he => h2 (hek ▸ he).symm)]
    · rw [if_neg (by simpa using hek), alist_get_cons, alist_get_cons, ih]
      by_cases h2 : k2 = k
      · rw [if_pos h2, if_neg (fun he => hek (he.trans h2)), if_pos h2]
      · by_cases he2 : e.1 = k2 <;> simp [he2, h2]

/-- Lookup after a dict deletion. -/
theorem alist_get_remove (l : List (String × α)) (k k2 : String) :
    alist_get (alist_remove l k) k2 = if k2 = k then none else alist_get l k2 := by
  induction l with
  | nil =>
    by_cases h : k2 = k
    · rw [if_pos h]; rfl
    · rw [if_neg h]; rfl
  | cons e rest ih =>
    rw [alist_remove, List.filter_cons]
    by_cases hek : e.1 = k
    · rw [if_neg (by simp [hek])]
      rw [alist_remove] at ih
      rw [ih, alist_get_cons]
      by_cases h2 : k2 = k
      · rw [if_pos h2, if_pos h2]
      · rw [if_neg h2, if_neg h2, if_neg (fun he => h2 (hek ▸ he).symm)]
    · rw [if_pos (by simp [hek])]
      rw [alist_get_cons]
      rw [alist_remove] at ih
      by_cases he2 : e.1 = k2
      · rw [if_pos he2, alist_get_cons, if_pos he2,
          if_neg (fun hk => hek (he2.trans hk))]
      · rw [if_neg he2, ih, alist_get_cons, if_neg he2]

/-- Register preserves the mutual-inverse invariant when the handle is fresh
or re-registers the same device. -/
theorem mutual_inverse_register (r : Registry) (sid d : String) (now : Nat)
    (hr : MutualInverse r) (hf : handle_fresh r sid d = true) :
    MutualInverse (register_device r sid d now) := by
  have hfresh : ∀ info, alist_get r.active_connections sid = some info → info.device_id = d := by
    intro info hinfo
    unfold handle_fresh at hf
    rw [hinfo] at hf
    simpa using hf
  intro d2 h2
  unfold register_device
  cases hold : alist_get r.device_to_sid d with
  | none =>
    simp only []
    rw [alist_get_insert, alist_get_insert]
    by_cases hd : d2 = d
    · subst hd
      rw [if_pos rfl]
      constructor
      · intro hsid
        injection hsid with hsid
        subst hsid
        rw [if_pos rfl]
        exact ⟨_, rfl, rfl⟩
      · rintro ⟨info, hinfo, hdev⟩
        by_cases hh : h2 = sid
        · rw [hh]
        · rw [if_neg hh] at hinfo
          have := (hr d2 h2).mpr ⟨info, hinfo, hdev⟩
          rw [hold] at this
          cases this
    · rw [if_neg hd]
      by_cases hh : h2 = sid
      · subst hh
        refine iff_of_false ?_ ?_
        · intro hl
          obtain ⟨info1, hact, hdev1⟩ := (hr d2 h2).mp hl
          exact hd (hdev1 ▸ hfresh info1 hact)
        · rintro ⟨info, hinfo, hdev⟩
          rw [if_pos rfl] at hinfo
          injection hinfo with hinfo
          rw [← hinfo] at hdev
          exact hd hdev.symm
      · rw [if_neg hh]
        exact hr d2 h2
  | some old_sid =>
    simp only []
    rw [alist_get_insert, alist_get_insert, alist_get_remove]
    obtain ⟨info0, hact0, hdev0⟩ := (hr d old_sid).mp hold
    by_cases hd : d2 = d
    · subst hd
      rw [if_pos rfl]
      constructor
      · intro hsid
        injection hsid with hsid
        subst hsid
        rw [if_pos rfl]
        exact ⟨_, rfl, rfl⟩
      · rintro ⟨info, hinfo, hdev⟩
        by_cases hh : h2 = sid
        · rw [hh]
        · rw [if_neg hh] at hinfo
          by_cases hho : h2 = old_sid
          · rw [if_pos hho] at hinfo
            cases hinfo
          · rw [if_neg hho] at hinfo
            have := (hr d2 h2).mpr ⟨info, hinfo, hdev⟩
            rw [hold] at this
            injection this with this
            exact absurd this.symm hho
    · rw [if_neg hd]
      by_cases hh : h2 = sid
      · subst hh
        refine iff_of_false ?_ ?_
        · intro hl
          obtain ⟨info1, hact, hdev1⟩ := (hr d2 h2).mp hl
          exact hd (hdev1 ▸ hfresh info1 hact)
        · rintro ⟨info, hinfo, hdev⟩
          rw [if_pos rfl] at hinfo
          injection hinfo with hinfo
          rw [← hinfo] at hdev
          exact hd hdev.symm
      · rw [if_neg hh]
        by_cases hho : h2 = old_sid
        · subst hho
          refine iff_of_false ?_ ?_
          · intro hl
            obtain ⟨info1, hact, hdev1⟩ := (hr d2 h2).mp hl
            rw [hact0] at hact
            injection hact with hact
            rw [← hact] at hdev1
            exact hd (hdev1 ▸ hdev0)
          · rintro ⟨info, hinfo, hdev⟩
            rw [if_pos rfl] at hinfo
            cases hinfo
        · rw [if_neg hho]
          exact hr d2 h2

/-- Unregister preserves the mutual-inverse invariant. -/
theorem mutual_inverse_unregister (r : Registry) (sid : String)
    (hr : MutualInverse r) :
    MutualInverse (unregister_device r sid).2 := by
  intro d2 h2
  unfold unregister_device
  cases hact : alist_get r.active_connections sid with
  | none => simp only []; exact hr d2 h2
  | some info =>
    simp only []
    have hback : alist_get r.device_to_sid info.device_id = some sid :=
      (hr info.device_id sid).mpr ⟨info, hact, rfl⟩
    rw [hback]
    simp only [Option.isSome_some, if_pos]
    rw [alist_get_remove, alist_get_remove]
    by_cases hd : d2 = info.device_id
    · subst hd
      rw [if_pos rfl]
      refine iff_of_false (fun h => by cases h) ?_
      rintro ⟨info2, hinfo2, hdev2⟩
      by_cases hh : h2 = sid
      · rw [if_pos hh] at hinfo2
        cases hinfo2
      · rw [if_neg hh] at hinfo2
        have := (hr info.device_id h2).mpr ⟨info2, hinfo2, hdev2⟩
        rw [hback] at this
        injection this with this
        exact hh this.symm
    · rw [if_neg hd]
      by_cases hh : h2 = sid
      · subst hh
        refine iff_of_false ?_ ?_
        · intro hl
          obtain ⟨info1, hact1, hdev1⟩ := (hr d2 h2).mp hl
          rw [hact] at hact1
          injection hact1 with hact1
          rw [← hact1] at hdev1
          exact hd hdev1.symm
        · rintro ⟨info2, hinfo2, hdev2⟩
          rw [if_pos rfl] at hinfo2
          cases hinfo2
      · rw [if_neg hh]
        exact hr d2 h2

/-- Claim C9, counterexample.  Re-registering the live handle H for another
device D2 leaves the stale binding D1 to H in `device_to_sid` while
`active_connections` holds H with device D2: the maps are no longer mutual
inverses after a registration that rebinds a handle, because register only
evicts by device id. -/
theorem C9_counterexample : ¬ MutualInverse regHandleRebind := by
  intro hinv
  have hl : alist_get regHandleRebind.device_to_sid "D1" = some "H" := by decide
  obtain ⟨info, hinfo, hdev⟩ := (hinv "D1" "H").mp hl
  have hv : alist_get regHandleRebind.active_connections "H" =
      some ⟨"D2", 1, 1⟩ := by decide
  rw [hv] at hinfo
  injection hinfo with hinfo
  rw [← hinfo] at hdev
  exact absurd hdev (by decide)

/-- Claim C9 (amended): after every sequence of register and unregister
operations starting from a mutually-inverse state, provided each register
uses a handle that is fresh or currently bound to the same device, the two
maps remain mutual inverses — so each device id resolves to at most one
live handle, device rebinds evict the stale binding, and unregister clears
both maps.  (The counterexample shows the proviso is necessary: a register
that rebinds a live handle to a different device breaks the invariant.) -/
theorem C9_registry_mutual_inverse (r : Registry) (ops : List RegistryOp)
    (hr : MutualInverse r) (hops : good_ops r ops = true) :
    MutualInverse (run_registry r ops) := by
  induction ops generalizing r with
  | nil => exact hr
  | cons op rest ih =>
    cases op with
    | register sid d now =>
      rw [good_ops, Bool.and_eq_true] at hops
      exact ih (register_device r sid d now)
        (mutual_inverse_register r sid d now hr hops.1) hops.2
    | unregister sid =>
      rw [good_ops] at hops
      exact ih (unregister_device r sid).2 (mutual_inverse_unregister r sid hr) hops

/-- Witness for C9_registry_mutual_inverse: device D reconnects on a fresh
handle and the old handle then unregisters. -/
theorem C9_registry_mutual_inverse_witness :
    MutualInverse (run_registry { active_connections := [], device_to_sid := [] } opsReconnect) := by
  refine C9_registry_mutual_inverse _ opsReconnect ?_ (by decide)
  intro d h
  constructor
  · intro hc
    cases hc
  · rintro ⟨info, hinfo, _⟩
    cases hinfo

/-- Effect of update_one on a session lookup: looking up the rewritten id
sees the update, any other id is untouched (given the update preserves the
id). -/
theorem find?_session_updateFirst (l : List UploadSession) (u uid : String)
    (f : UploadSession → UploadSession) (hid : ∀ t, (f t).upload_id = t.upload_id) :
    (updateFirst (fun t => t.upload_id == u) f l).find? (fun t => t.upload_id == uid) =
      if uid = u then (l.find? (fun t => t.upload_id == uid)).map f
      else l.find? (fun t => t.upload_id == uid) := by
  induction l with
  | nil => by_cases h : uid = u <;> simp [updateFirst, h]
  | cons t rest ih =>
    rw [updateFirst]
    by_cases htu : t.upload_id = u
    · rw [if_pos (by simpa using htu)]
      by_cases huu : uid = u
      · rw [if_pos huu]
        rw [List.find?_cons_of_pos _ (by simp [hid t, htu, huu]),
          List.find?_cons_of_pos _ (by simp [htu, huu])]
        rfl
      · rw [if_neg huu]
        rw [List.find?_cons_of_neg _ (by simp [hid t, htu]; exact fun he => huu he.symm),
          List.find?_cons_of_neg _ (by simp [htu]; exact fun he => huu he.symm)]
    · rw [if_neg (by simpa using htu)]
      by_cases huu : uid = u
      · rw [if_pos huu]
        rw [List.find?_cons_of_neg _ (by simp; exact fun he => htu (huu ▸ he)),
          List.find?_cons_of_neg _ (by simp; exact fun he => htu (huu ▸ he))]
        rw [ih, if_pos huu]
      · rw [if_neg huu]
        by_cases ht2 : t.upload_id = uid
        · rw [List.find?_cons_of_pos _ (by simpa using ht2),
            List.find?_cons_of_pos _ (by simpa using ht2)]
        · rw [List.find?_cons_of_neg _ (by simpa using ht2),
            List.find?_cons_of_neg _ (by simpa using ht2), ih, if_neg huu]

/-- One putChunk call can only grow the received set of any session. -/
theorem upload_chunk_superset (fs : UploadFS) (u uid : String) (i : Int) (b : List Nat) :
    ReceivedSuperset fs (upload_chunk fs u i b).2 uid := by
  intro s hsfind
  unfold upload_chunk
  cases hfu : fs.sessions.find? (fun t => t.upload_id == u) with
  | none => exact ⟨s, hsfind, rfl, fun j hj => hj⟩
  | some s0 =>
    simp only []
    by_cases hge : i ≥ (s0.total_chunks : Int)
    · rw [if_pos hge]
      exact ⟨s, hsfind, rfl, fun j hj => hj⟩
    · rw [if_neg hge]
      simp only []
      by_cases huu : uid = u
      · subst huu
        have hs0 : s0 = s := by
          rw [hsfind] at hfu
          injection hfu with hfu
          exact hfu.symm
        subst hs0
        refine ⟨{ s0 with received_chunks :=
            if s0.received_chunks.contains i then s0.received_chunks
            else List.insertionSort (· ≤ ·) (s0.received_chunks ++ [i]) }, ?_, rfl, ?_⟩
        · rw [find?_session_updateFirst fs.sessions uid uid
            (fun t => { t with received_chunks :=
              if s0.received_chunks.contains i then s0.received_chunks
              else List.insertionSort (· ≤ ·) (s0.received_chunks ++ [i]) })
            (fun t => rfl), if_pos rfl, hsfind]
          rfl
        · intro j hj
          dsimp only
          split
          · exact hj
          · exact (List.perm_insertionSort _ _).mem_iff.mpr (List.mem_append_left _ hj)
      · refine ⟨s, ?_, rfl, fun j hj => hj⟩
        rw [find?_session_updateFirst fs.sessions u uid
          (fun t => { t with received_chunks :=
            if s0.received_chunks.contains i then s0.received_chunks
            else List.insertionSort (· ≤ ·) (s0.received_chunks ++ [i]) })
          (fun t => rfl), if_neg huu]
        exact hsfind

/-- Any sequence of putChunk calls can only grow the received set of any
session. -/
theorem apply_puts_superset (uid : String) :
    ∀ (puts : List (String × Int × List Nat)) (fs : UploadFS),
      ReceivedSuperset fs (apply_puts fs puts) uid := by
  intro puts
  induction puts with
  | nil => intro fs s hs; exact ⟨s, hs, rfl, fun j hj => hj⟩
  | cons p rest ih =>
    intro fs s hs
    obtain ⟨u, i, b⟩ := p
    obtain ⟨s1, hs1, ht1, hsub1⟩ := upload_chunk_superset fs u uid i b s hs
    obtain ⟨s2, hs2, ht2, hsub2⟩ := ih (upload_chunk fs u i b).2 s1 hs1
    exact ⟨s2, hs2, ht2.trans ht1, fun j hj => hsub2 j (hsub1 j hj)⟩

/-- A session whose received set holds the index -1 can never complete:
the received set no longer equals the expected range, whatever faults. -/
theorem complete_fails_with_neg (fs : UploadFS) (uid fname : String)
    (faults : MergeFaults) (s : UploadSession)
    (hs : fs.sessions.find? (fun t => t.upload_id == uid) = some s)
    (hneg : (-1 : Int) ∈ s.received_chunks) :
    (complete_chunked_upload fs uid fname faults).1.isOk = false := by
  unfold complete_chunked_upload
  rw [hs]
  simp only []
  have hB : s.received_chunks.all
      (fun i => ((List.range s.total_chunks).map Int.ofNat).contains i) = false := by
    by_contra hB
    rw [Bool.not_eq_false, List.all_eq_true] at hB
    have h := hB (-1) hneg
    rw [List.elem_iff, mem_range_map_ofNat] at h
    exact absurd h.1 (by omega)
  rw [hB, Bool.and_false]
  rfl

/-- Claim C10: putChunk validates only the upper bound of the chunk index —
on an existing session a put at index -1 succeeds, writes the chunk file and
adds -1 to the received set; from then on complete can never succeed for
that session, whatever chunks are uploaded afterwards and whatever faults
occur, since the received set can no longer equal the expected range; the
device download endpoint, by contrast, rejects a negative index outright. -/
theorem C10_negative_index (fs : UploadFS) (uid : String) (s : UploadSession)
    (bytes : List Nat)
    (hs : fs.sessions.find? (fun t => t.upload_id == uid) = some s) :
    ∃ received2 fs2,
      upload_chunk fs uid (-1) bytes = (.ok (-1) received2 s.total_chunks, fs2) ∧
      (-1 : Int) ∈ received2 ∧
      fs2.chunk_files = set_chunk_file fs.chunk_files uid (-1) bytes ∧
      fs2.sessions.find? (fun t => t.upload_id == uid) =
        some { s with received_chunks := received2 } ∧
      (∀ (puts : List (String × Int × List Nat)) (fname : String) (faults : MergeFaults),
        (complete_chunked_upload (apply_puts fs2 puts) uid fname faults).1.isOk = false) ∧
      (∀ (file : List Nat) (csp : Int),
        device_download_video_chunk file (-1) csp = .error "參數 chunk 不能為負數" 400) := by
  have hneg : ¬ ((-1 : Int) ≥ (s.total_chunks : Int)) := by omega
  refine ⟨if s.received_chunks.contains (-1) then s.received_chunks
      else List.insertionSort (· ≤ ·) (s.received_chunks ++ [-1]),
    { fs with
        chunk_files := set_chunk_file fs.chunk_files uid (-1) bytes
        sessions := (updateFirst (fun t => t.upload_id == uid)
          (fun t => { t with received_chunks :=
            if s.received_chunks.contains (-1) then s.received_chunks
            else List.insertionSort (· ≤ ·) (s.received_chunks ++ [-1]) })
          fs.sessions) }, ?_, ?_, rfl, ?_, ?_, ?_⟩
  · unfold upload_chunk
    rw [hs]
    simp only []
    rw [if_neg hneg]
  · split
    next hc => rwa [← List.elem_iff]
    next hc =>
      exact (List.perm_insertionSort _ _).mem_iff.mpr
        (List.mem_append_right _ (List.mem_singleton.mpr rfl))
  · rw [find?_session_updateFirst fs.sessions uid uid
      (fun t => { t with received_chunks :=
        if s.received_chunks.contains (-1) then s.received_chunks
        else List.insertionSort (· ≤ ·) (s.received_chunks ++ [-1]) })
      (fun t => rfl), if_pos rfl, hs]
    rfl
  · intro puts fname faults
    have hmem : (-1 : Int) ∈ (if s.received_chunks.contains (-1) then s.received_chunks
        else List.insertionSort (· ≤ ·) (s.received_chunks ++ [-1])) := by
      split
      next hc => rwa [← List.elem_iff]
      next hc =>
        exact (List.perm_insertionSort _ _).mem_iff.mpr
          (List.mem_append_right _ (List.mem_singleton.mpr rfl))
    have hs2 : ({ fs with
        chunk_files := set_chunk_file fs.chunk_files uid (-1) bytes
        sessions := (updateFirst (fun t => t.upload_id == uid)
          (fun t => { t with received_chunks :=
            if s.received_chunks.contains (-1) then s.received_chunks
            else List.insertionSort (· ≤ ·) (s.received_chunks ++ [-1]) })
          fs.sessions) } : UploadFS).sessions.find? (fun t => t.upload_id == uid) =
        some { s with received_chunks :=
          if s.received_chunks.contains (-1) then s.received_chunks
          else List.insertionSort (· ≤ ·) (s.received_chunks ++ [-1]) } := by
      rw [find?_session_updateFirst fs.sessions uid uid
        (fun t => { t with received_chunks :=
          if s.received_chunks.contains (-1) then s.received_chunks
          else List.insertionSort (· ≤ ·) (s.received_chunks ++ [-1]) })
        (fun t => rfl), if_pos rfl, hs]
      rfl
    obtain ⟨s3, hs3, ht3, hsub3⟩ := apply_puts_superset uid puts _ _ hs2
    exact complete_fails_with_neg _ uid fname faults s3 hs3 (hsub3 (-1) hmem)
  · intro file csp
    unfold device_download_video_chunk
    rw [if_pos (by omega : (-1 : Int) < 0)]

/-- Witness for C10_negative_index on the empty two-chunk session. -/
theorem C10_negative_index_witness :
    ∃ received2 fs2,
      upload_chunk fsEmpty "u1" (-1) [9] = (.ok (-1) received2 sessEmpty.total_chunks, fs2) ∧
      (-1 : Int) ∈ received2 ∧
      fs2.chunk_files = set_chunk_file fsEmpty.chunk_files "u1" (-1) [9] ∧
      fs2.sessions.find? (fun t => t.upload_id == "u1") =
        some { sessEmpty with received_chunks := received2 } ∧
      (∀ (puts : List (String × Int × List Nat)) (fname : String) (faults : MergeFaults),
        (complete_chunked_upload (apply_puts fs2 puts) "u1" fname faults).1.isOk = false) ∧
      (∀ (file : List Nat) (csp : Int),
        device_download_video_chunk file (-1) csp = .error "參數 chunk 不能為負數" 400) :=
  C10_negative_index fsEmpty "u1" sessEmpty [9] (by decide)

end RobustTaxi
